import Mathlib

/-!
Shallow embedding of the stay-singletrack prediction engine
(scripts/daily/generate-predictions.ts) together with the earlier
simplified variant of `predictTrailCondition` kept in the repository.

Modelling conventions: JavaScript numbers are modelled as exact
rationals; timestamps are rational hours since the Unix epoch in local
time; a weather record date (a calendar day) is its integer day number
on that timeline, so local noon of day `d` is the hour `24 * d + 12`;
access strings are lists of characters.
-/

namespace StaySingletrack

/-!
### Civil calendar arithmetic (model of the JS `Date` object)

`daysFromCivil` and `civilFromDays` are the standard proleptic-Gregorian
conversions between (year, month 1..12, day) triples and day numbers
with day 0 = 1970-01-01, written with Euclidean division so that they
are valid for every integer year.  `makeDay` mirrors the ECMAScript
`MakeDay(year, month, day)` normalisation performed by
`new Date(year, month, day)`: the 0-based month rolls over into the
year and the day offsets linearly from day 1 of that month.
-/

def daysFromCivil (y m d : ℤ) : ℤ :=
  let y2 := if m ≤ 2 then y - 1 else y
  let era := Int.ediv y2 400
  let yoe := y2 - era * 400
  let mp := Int.emod (m + 9) 12
  let doy := Int.ediv (153 * mp + 2) 5 + d - 1
  let doe := yoe * 365 + Int.ediv yoe 4 - Int.ediv yoe 100 + doy
  era * 146097 + doe - 719468

def civilFromDays (z : ℤ) : ℤ × ℤ × ℤ :=
  let z2 := z + 719468
  let era := Int.ediv z2 146097
  let doe := z2 - era * 146097
  let yoe := Int.ediv (doe - Int.ediv doe 1460 + Int.ediv doe 36524 - Int.ediv doe 146096) 365
  let y := yoe + era * 400
  let doy := doe - (365 * yoe + Int.ediv yoe 4 - Int.ediv yoe 100)
  let mp := Int.ediv (5 * doy + 2) 153
  let d := doy - Int.ediv (153 * mp + 2) 5 + 1
  let m := if mp < 10 then mp + 3 else mp - 9
  (if m ≤ 2 then y + 1 else y, m, d)

/-- Midnight (as a day number) of `new Date(year, month0, day)`,
with the ECMAScript rollover semantics for out-of-range fields. -/
def makeDay (year month0 day : ℤ) : ℤ :=
  daysFromCivil (year + Int.ediv month0 12) (Int.emod month0 12 + 1) 1 + (day - 1)

/-- The calendar day containing the instant `now` (hours since epoch). -/
def epochDay (now : ℚ) : ℤ := Int.floor (now / 24)

/-- `now.getFullYear()`. -/
def getFullYear (now : ℚ) : ℤ := (civilFromDays (epochDay now)).1

/-- `now.getMonth()`: 0-indexed month. -/
def getMonth0 (now : ℚ) : ℤ := (civilFromDays (epochDay now)).2.1 - 1

/-!
### Strings: trim, toLowerCase and the date-range regular expression

The access field is free ASCII text in this data set, so `trim` and
`toLowerCase` are modelled on the ASCII fragment of their JS behaviour.
-/

def isJsSpace (c : Char) : Bool :=
  c = ' ' || c = '\t' || c = '\n' || c = '\r' || c = Char.ofNat 11 || c = Char.ofNat 12

def lowerChar (c : Char) : Char :=
  if 'A' ≤ c ∧ c ≤ 'Z' then Char.ofNat (c.toNat + 32) else c

/-- `s.trim()`: strip whitespace from both ends. -/
def trimList (cs : List Char) : List Char :=
  ((cs.dropWhile isJsSpace).reverse.dropWhile isJsSpace).reverse

/-- `s.trim().toLowerCase()`. -/
def trimLower (cs : List Char) : List Char := (trimList cs).map lowerChar

def digitVal (c : Char) : ℤ := (c.toNat : ℤ) - 48

/-- One regex group `(\d|\d\d)` (greedy, with backtracking) followed by a
literal separator character, consuming the separator.  The two-digit
alternative is tried first; the one-digit alternative can only succeed
when the second character is the separator, which is never a digit, so
the backtracking order is observationally deterministic. -/
def numThen (cs : List Char) (sep : Char) : Option (ℤ × List Char) :=
  match cs with
  | c1 :: c2 :: c3 :: rest =>
    if c1.isDigit then
      if c2.isDigit then
        if c3 = sep then some (10 * digitVal c1 + digitVal c2, rest)
        else if c2 = sep then some (digitVal c1, c3 :: rest)
        else none
      else if c2 = sep then some (digitVal c1, c3 :: rest)
      else none
    else none
  | [c1, c2] =>
    if c1.isDigit && (c2 = sep) then some (digitVal c1, ([] : List Char)) else none
  | _ => none

/-- The final regex group `(\d|\d\d)` at the end of the pattern (greedy). -/
def numEnd (cs : List Char) : Option ℤ :=
  match cs with
  | c1 :: c2 :: _ =>
    if c1.isDigit then
      if c2.isDigit then some (10 * digitVal c1 + digitVal c2) else some (digitVal c1)
    else none
  | [c1] => if c1.isDigit then some (digitVal c1) else none
  | [] => none

/-- Attempt to match the date-range pattern at the head of the list,
returning the four `parseInt`-ed groups. -/
def matchAt (cs : List Char) : Option (ℤ × ℤ × ℤ × ℤ) :=
  match numThen cs '/' with
  | none => none
  | some (m1, r1) =>
    match numThen r1 '-' with
    | none => none
    | some (d1, r2) =>
      match numThen r2 '/' with
      | none => none
      | some (m2, r3) =>
        match numEnd r3 with
        | none => none
        | some d2 => some (m1, d1, m2, d2)

/-- Leftmost match of the date-range pattern, as found by
`access.match(...)` with the pattern from the source. -/
def findDateRange : List Char → Option (ℤ × ℤ × ℤ × ℤ)
  | [] => none
  | c :: rest =>
    match matchAt (c :: rest) with
    | some r => some r
    | none => findDateRange rest

/-!
### Data model (the `Trail`, `WeatherDay` and result shapes)

Only the fields consumed by the prediction engine are modelled; the
identifiers, display name and geometry are passed through untouched by
the source and carry no algorithmic content.
-/

inductive TrailCondition
  | rideable
  | likely_rideable
  | likely_muddy
  | muddy
  | snow
  | closed
  | unknown
deriving DecidableEq, Repr

inductive Aspect
  | N | NE | E | SE | S | SW | W | NW
deriving DecidableEq, Repr

inductive DrainageClass
  | excessivelyDrained
  | wellDrained
  | moderatelyWellDrained
  | somewhatPoorlyDrained
  | poorlyDrained
  | veryPoorlyDrained
deriving DecidableEq, Repr

structure Trail where
  centroid_lat : ℚ
  centroid_lon : ℚ
  elevation_min : Option ℚ
  elevation_max : Option ℚ
  dominant_aspect : Option Aspect
  soil_drainage_class : Option DrainageClass
  base_dry_hours : Option ℚ
  access : Option (List Char)
deriving DecidableEq, Repr

structure WeatherDay where
  date : ℤ
  precipitation_mm : ℚ
  temp_max_c : ℚ
  temp_min_c : ℚ
  humidity_pct : ℚ
deriving DecidableEq, Repr

structure PredictionResult where
  condition : TrailCondition
  confidence : ℤ
  hours_since_rain : ℤ
  effective_dry_hours : ℤ
deriving DecidableEq, Repr

/-!
### Prediction constants
-/

def BASE_DRY_HOURS : DrainageClass → ℚ
  | .excessivelyDrained => 6
  | .wellDrained => 24
  | .moderatelyWellDrained => 48
  | .somewhatPoorlyDrained => 72
  | .poorlyDrained => 120
  | .veryPoorlyDrained => 168

def ASPECT_MODIFIERS : Aspect → ℚ
  | .S => 0.6
  | .SE => 0.7
  | .SW => 0.7
  | .E => 0.85
  | .W => 0.85
  | .NE => 1.1
  | .NW => 1.1
  | .N => 1.3

def PRECIP_THRESHOLD_MM : ℚ := 2.5

/-!
### Regions and stations
-/

inductive Region
  | front_range | boulder | golden | denver | colorado_springs | fort_collins
  | summit_county | leadville | aspen | durango | steamboat | gunnison | telluride
deriving DecidableEq, Repr

def regionCenter : Region → ℚ × ℚ
  | .front_range => (39.75, -105.2)
  | .boulder => (40.015, -105.27)
  | .golden => (39.75, -105.22)
  | .denver => (39.74, -104.99)
  | .colorado_springs => (38.83, -104.82)
  | .fort_collins => (40.58, -105.08)
  | .summit_county => (39.6, -106.0)
  | .leadville => (39.25, -106.29)
  | .aspen => (39.19, -106.82)
  | .durango => (37.28, -107.88)
  | .steamboat => (40.48, -106.83)
  | .gunnison => (38.55, -106.93)
  | .telluride => (37.94, -107.81)

/-- Iteration order of `Object.entries(regions)` in the source. -/
def regionList : List Region :=
  [.front_range, .boulder, .golden, .denver, .colorado_springs, .fort_collins,
   .summit_county, .leadville, .aspen, .durango, .steamboat, .gunnison, .telluride]

/-- `getNearestRegion`: fold over the region table keeping the strictly
closest one.  The source compares `Math.sqrt` of the squared distances;
the square root is strictly monotone on nonnegative reals, so the
comparisons are carried out here on the squared distances themselves.
`none` plays the role of the initial `Infinity`. -/
def getNearestRegion (lat lon : ℚ) : Region :=
  (regionList.foldl
    (fun acc r =>
      let c := regionCenter r
      let distSq := (lat - c.1) ^ 2 + (lon - c.2) ^ 2
      match acc.2 with
      | none => (r, some distSq)
      | some m => if distSq < m then (r, some distSq) else acc)
    (Region.front_range, (none : Option ℚ))).1

def STATION_ELEVATIONS : Region → ℚ
  | .front_range => 1800
  | .boulder => 1655
  | .golden => 1730
  | .denver => 1609
  | .colorado_springs => 1839
  | .fort_collins => 1525
  | .summit_county => 2926
  | .leadville => 3094
  | .aspen => 2438
  | .durango => 2003
  | .steamboat => 2051
  | .gunnison => 2347
  | .telluride => 2667

/-!
### JavaScript numeric idioms
-/

/-- JS `x || d` on a nullable number: both `null` and `0` are falsy, so a
present value of exactly `0` falls through to the default. -/
def jsOrNum (o : Option ℚ) (d : ℚ) : ℚ :=
  match o with
  | some x => if x = 0 then d else x
  | none => d

/-- JS `Math.round`: round half toward positive infinity. -/
def jsRound (q : ℚ) : ℤ := Int.floor (q + 1 / 2)

/-!
### Weather helpers
-/

/-- Descending-by-date comparison used by the sort in
`calculateHoursSinceRain`. -/
def dateGE (a b : WeatherDay) : Prop := b.date ≤ a.date

instance : DecidableRel dateGE :=
  fun a b => inferInstanceAs (Decidable (b.date ≤ a.date))

instance : IsTotal WeatherDay dateGE := ⟨fun a b => le_total b.date a.date⟩

instance : IsTrans WeatherDay dateGE := ⟨fun _ _ _ h1 h2 => le_trans h2 h1⟩

/-- `[...weather].sort((a, b) => b.date - a.date)`: most recent first. -/
def sortByDateDesc (weather : List WeatherDay) : List WeatherDay :=
  List.insertionSort dateGE weather

/-- The `for` loop body of `calculateHoursSinceRain`: first day (in the
given order) whose precipitation reaches the significance threshold. -/
def firstSignificant : List WeatherDay → Option WeatherDay
  | [] => none
  | d :: rest =>
    if PRECIP_THRESHOLD_MM ≤ d.precipitation_mm then some d else firstSignificant rest

/-- `calculateHoursSinceRain`: hours since noon of the most recent day
with significant precipitation, clamped at 0; `weather.length * 24` when
no day qualifies. -/
def calculateHoursSinceRain (weather : List WeatherDay) (now : ℚ) : ℤ :=
  match firstSignificant (sortByDateDesc weather) with
  | some d => max 0 (jsRound (now - ((24 * d.date + 12 : ℤ) : ℚ)))
  | none => (weather.length : ℤ) * 24

/-- `calculateAvgTemp`: mean of `temp_max_c` over the first `days`
entries of the window; 15 when the window is empty. -/
def calculateAvgTemp (weather : List WeatherDay) (days : ℕ) : ℚ :=
  let recent := weather.take days
  if recent.length = 0 then 15
  else (recent.map (fun d => d.temp_max_c)).sum / (recent.length : ℚ)

/-!
### Seasonal access evaluation
-/

/-- `isSeasonallyClosed(access, elevationMin)` with the ambient
`new Date()` made explicit as `now`. -/
def isSeasonallyClosed (access : Option (List Char)) (elevationMin : Option ℚ) (now : ℚ) : Bool :=
  match access with
  | none => false
  | some cs =>
    if trimList cs = [] then false
    else
      let trimmed := trimLower cs
      if trimmed = "no".toList ∨ trimmed = "authorized/permitted user only".toList then true
      else
        match findDateRange cs with
        | some (m1, d1, m2, d2) =>
          let year := getFullYear now
          let openDate : ℤ := 24 * makeDay year (m1 - 1) d1
          let closeDate : ℤ := 24 * makeDay year (m2 - 1) d2
          decide (now < (openDate : ℚ)) || decide ((closeDate : ℚ) < now)
        | none =>
          if trimmed = "seasonally".toList then
            let month := getMonth0 now
            let elevFt := jsOrNum elevationMin 0 * 3.28084
            (decide (10 ≤ month) || decide (month ≤ 3)) && decide (9500 < elevFt)
          else false

/-!
### The condition classifier

The inline `let` bindings of `predictTrailCondition` in the source are
factored into named helper functions so that the theorems below can
refer to the intermediate quantities; each helper is a verbatim
transcription of the corresponding binding.
-/

/-- `baseDryHours = trail.base_dry_hours || (soil ? table[soil] : 48)`. -/
def baseDryHoursOf (trail : Trail) : ℚ :=
  jsOrNum trail.base_dry_hours
    (match trail.soil_drainage_class with
     | some c => BASE_DRY_HOURS c
     | none => 48)

/-- `aspectMod = trail.dominant_aspect ? ASPECT_MODIFIERS[...] : 1.0`. -/
def aspectModOf (trail : Trail) : ℚ :=
  match trail.dominant_aspect with
  | some a => ASPECT_MODIFIERS a
  | none => 1

/-- `elevMod = (trail.elevation_min && trail.elevation_min > 2438) ? 1.2 : 1.0`;
the `elevation_min &&` conjunct is JS truthiness, i.e. nonzero. -/
def elevModOf (trail : Trail) : ℚ :=
  match trail.elevation_min with
  | some e => if e ≠ 0 ∧ 2438 < e then 1.2 else 1
  | none => 1

def stationElevationOf (trail : Trail) : ℚ :=
  STATION_ELEVATIONS (getNearestRegion trail.centroid_lat trail.centroid_lon)

/-- `trailElevation = trail.elevation_min || stationElevation`. -/
def trailElevationOf (trail : Trail) : ℚ :=
  jsOrNum trail.elevation_min (stationElevationOf trail)

/-- Station average temperature corrected to trail elevation with the
6.5 degrees C per 1000 m lapse rate, clamped so that the correction only
cools. -/
def correctedAvgTemp (trail : Trail) (weather : List WeatherDay) : ℚ :=
  calculateAvgTemp weather 3 -
    max 0 (trailElevationOf trail - stationElevationOf trail) / 1000 * 6.5

/-- The temperature modifier step function. -/
def temperatureModifier (avgTemp : ℚ) : ℚ :=
  if 20 < avgTemp then 0.7
  else if 10 < avgTemp then 1
  else if 0 < avgTemp then 1.5
  else 3

/-- `effectiveDryHours = Math.round(base * aspectMod * elevMod * tempMod)`. -/
def effectiveDryHoursOf (trail : Trail) (weather : List WeatherDay) : ℤ :=
  jsRound (baseDryHoursOf trail * aspectModOf trail * elevModOf trail *
    temperatureModifier (correctedAvgTemp trail weather))

/-- The snow/ice override of the current implementation. -/
def isSnowOf (trail : Trail) (weather : List WeatherDay) (now : ℚ) : Bool :=
  let avgTemp := correctedAvgTemp trail weather
  let month := getMonth0 now
  let isWinterMonth := decide (10 ≤ month) || decide (month ≤ 3)
  let trailElevFt := trailElevationOf trail * 3.28084
  decide (avgTemp < 0) ||
    (isWinterMonth && decide (11000 < trailElevFt)) ||
    (isWinterMonth && decide (9500 < trailElevFt) && decide (avgTemp < 5))

/-- The confidence score: base 50, +25 for a known soil class, +10 for a
known aspect, +10 for a non-null minimum elevation, capped at 100. -/
def confidenceOf (trail : Trail) : ℤ :=
  min
    (50 + (if trail.soil_drainage_class.isSome then 25 else 0) +
      (if trail.dominant_aspect.isSome then 10 else 0) +
      (if trail.elevation_min.isSome then 10 else 0))
    100

/-- `predictTrailCondition` of scripts/daily/generate-predictions.ts,
with the ambient `new Date()` readings made explicit as `now`. -/
def predictTrailCondition (trail : Trail) (weather : List WeatherDay) (now : ℚ) :
    PredictionResult :=
  if isSeasonallyClosed trail.access trail.elevation_min now then
    ⟨.closed, 100, 0, 0⟩
  else
    let effectiveDryHours := effectiveDryHoursOf trail weather
    let hoursSinceRain := calculateHoursSinceRain weather now
    let condition : TrailCondition :=
      if isSnowOf trail weather now then .snow
      else if (effectiveDryHours : ℚ) * 1.5 < (hoursSinceRain : ℚ) then .rideable
      else if (effectiveDryHours : ℚ) < (hoursSinceRain : ℚ) then .likely_rideable
      else if (effectiveDryHours : ℚ) * 0.5 < (hoursSinceRain : ℚ) then .likely_muddy
      else .muddy
    ⟨condition, confidenceOf trail, hoursSinceRain, effectiveDryHours⟩

/-- `predictTrailCondition` of the earlier simplified implementation
(src/unnamed/part_003): no seasonal-closure check, no lapse-rate
correction (the station average is used directly) and a snow rule that
only looks at the average temperature.  Its `Trail` record had no
`access` field; the shared record is reused here and the field is simply
never read.  The helper functions it shares with the current version
(`calculateAvgTemp`, `calculateHoursSinceRain`, the modifier tables and
the confidence formula) are textually identical in the two source files
and are therefore shared. -/
def predictTrailConditionOld (trail : Trail) (weather : List WeatherDay) (now : ℚ) :
    PredictionResult :=
  let avgTemp := calculateAvgTemp weather 3
  let effectiveDryHours := jsRound (baseDryHoursOf trail * aspectModOf trail *
    elevModOf trail * temperatureModifier avgTemp)
  let hoursSinceRain := calculateHoursSinceRain weather now
  let condition : TrailCondition :=
    if avgTemp < 0 then .snow
    else if (effectiveDryHours : ℚ) * 1.5 < (hoursSinceRain : ℚ) then .rideable
    else if (effectiveDryHours : ℚ) < (hoursSinceRain : ℚ) then .likely_rideable
    else if (effectiveDryHours : ℚ) * 0.5 < (hoursSinceRain : ℚ) then .likely_muddy
    else .muddy
  ⟨condition, confidenceOf trail, hoursSinceRain, effectiveDryHours⟩

/-- Optional attributes ordered by knownness: `none` below everything. -/
def optKnownLE {α : Type} (o o' : Option α) : Prop := o = none ∨ o = o'

/-!
### Helper lemmas: characters and the date-range pattern
-/

theorem lowerChar_of_isDigit {c : Char} (h : c.isDigit = true) : lowerChar c = c := by
  simp only [Char.isDigit, decide_eq_true_eq, Bool.and_eq_true, ge_iff_le] at h
  unfold lowerChar
  rw [if_neg]
  rintro ⟨h1, _⟩
  have ha : (65 : ℕ) ≤ c.val.toNat := h1
  have hb : c.val.toNat ≤ (57 : ℕ) := h.2
  omega

theorem isJsSpace_of_isDigit {c : Char} (h : c.isDigit = true) : isJsSpace c = false := by
  simp only [Char.isDigit, decide_eq_true_eq, Bool.and_eq_true, ge_iff_le] at h
  have ha : (48 : ℕ) ≤ c.val.toNat := h.1
  have hb : c.val.toNat ≤ (57 : ℕ) := h.2
  simp only [isJsSpace, Bool.or_eq_false_iff, decide_eq_false_iff_not]
  refine ⟨⟨⟨⟨⟨?_, ?_⟩, ?_⟩, ?_⟩, ?_⟩, ?_⟩ <;>
    · intro he
      rw [he] at ha hb
      revert ha hb
      decide

theorem mem_dropWhile_of_neg {α : Type} {p : α → Bool} {c : α} :
    ∀ {l : List α}, c ∈ l → p c = false → c ∈ l.dropWhile p := by
  intro l
  induction l with
  | nil => intro h _; cases h
  | cons a rest ih =>
    intro hc hp
    cases hpa : p a with
    | false => simpa [List.dropWhile, hpa] using hc
    | true =>
      simp only [List.dropWhile, hpa]
      rcases List.mem_cons.mp hc with h | h
      · subst h; rw [hpa] at hp; cases hp
      · exact ih h hp

theorem mem_trimList {c : Char} {cs : List Char} (hc : c ∈ cs)
    (hsp : isJsSpace c = false) : c ∈ trimList cs := by
  unfold trimList
  have h1 := mem_dropWhile_of_neg hc hsp
  have h2 : c ∈ (cs.dropWhile isJsSpace).reverse := List.mem_reverse.mpr h1
  exact List.mem_reverse.mpr (mem_dropWhile_of_neg h2 hsp)

theorem digit_mem_trimLower {c : Char} {cs : List Char} (hc : c ∈ cs)
    (hd : c.isDigit = true) : c ∈ trimLower cs := by
  have h1 := mem_trimList hc (isJsSpace_of_isDigit hd)
  have h2 : lowerChar c ∈ (trimList cs).map lowerChar := List.mem_map_of_mem lowerChar h1
  rw [lowerChar_of_isDigit hd] at h2
  exact h2

theorem numThen_digit {cs : List Char} {sep : Char} {v : ℤ} {r : List Char}
    (h : numThen cs sep = some (v, r)) : ∃ c ∈ cs, c.isDigit = true := by
  match cs with
  | [] => cases h
  | [c1] => cases h
  | [c1, c2] =>
    simp only [numThen] at h
    split_ifs at h with h1
    exact ⟨c1, by simp, (Bool.and_eq_true .. ▸ h1).1⟩
  | c1 :: c2 :: c3 :: rest =>
    simp only [numThen] at h
    split_ifs at h with h1 h2 h3 h4 h5 <;> exact ⟨c1, by simp, h1⟩

theorem matchAt_digit {cs : List Char} {r : ℤ × ℤ × ℤ × ℤ}
    (h : matchAt cs = some r) : ∃ c ∈ cs, c.isDigit = true := by
  unfold matchAt at h
  rcases h1 : numThen cs '/' with _ | ⟨m1, r1⟩
  · rw [h1] at h; cases h
  · exact numThen_digit h1

theorem findDateRange_digit : ∀ {cs : List Char} {r : ℤ × ℤ × ℤ × ℤ},
    findDateRange cs = some r → ∃ c ∈ cs, c.isDigit = true := by
  intro cs
  induction cs with
  | nil => intro r h; cases h
  | cons c rest ih =>
    intro r h
    unfold findDateRange at h
    rcases hm : matchAt (c :: rest) with _ | r0
    · rw [hm] at h
      obtain ⟨c0, hc0, hd0⟩ := ih h
      exact ⟨c0, List.mem_cons_of_mem c hc0, hd0⟩
    · rw [hm] at h
      exact matchAt_digit hm

/-- The spine of `isSeasonallyClosed` in the presence of a date-range
match: the early "no"/"authorized" and empty-string returns cannot fire
(a matched string contains a digit), so the result is exactly the
comparison of `now` against the two midnight timestamps built in the
current year. -/
theorem isSeasonallyClosed_of_dateRange {cs : List Char} {elev : Option ℚ} {now : ℚ}
    {m1 d1 m2 d2 : ℤ} (h : findDateRange cs = some (m1, d1, m2, d2)) :
    isSeasonallyClosed (some cs) elev now =
      (decide (now < ((24 * makeDay (getFullYear now) (m1 - 1) d1 : ℤ) : ℚ)) ||
       decide (((24 * makeDay (getFullYear now) (m2 - 1) d2 : ℤ) : ℚ) < now)) := by
  obtain ⟨c, hcmem, hcd⟩ := findDateRange_digit h
  have htrim : c ∈ trimList cs := mem_trimList hcmem (isJsSpace_of_isDigit hcd)
  have hlow : c ∈ trimLower cs := digit_mem_trimLower hcmem hcd
  have hne : ¬(trimList cs = []) := by
    intro h0; rw [h0] at htrim; cases htrim
  have hnodig : ∀ x ∈ "no".toList, x.isDigit = false := by decide
  have hauthdig : ∀ x ∈ "authorized/permitted user only".toList, x.isDigit = false := by decide
  have hno : ¬(trimLower cs = "no".toList) := by
    intro h0; rw [h0] at hlow; rw [hnodig c hlow] at hcd; cases hcd
  have hauth : ¬(trimLower cs = "authorized/permitted user only".toList) := by
    intro h0; rw [h0] at hlow; rw [hauthdig c hlow] at hcd; cases hcd
  simp only [isSeasonallyClosed, hne, hno, hauth, h, if_false, or_self, ite_false]

/-!
### Helper lemmas: the precipitation scan
-/

theorem mem_sortByDateDesc {x : WeatherDay} {w : List WeatherDay} :
    x ∈ sortByDateDesc w ↔ x ∈ w :=
  (List.perm_insertionSort dateGE w).mem_iff

theorem sorted_sortByDateDesc (w : List WeatherDay) :
    (sortByDateDesc w).Sorted dateGE :=
  List.sorted_insertionSort dateGE w

theorem firstSignificant_eq_none : ∀ {l : List WeatherDay},
    firstSignificant l = none ↔ ∀ x ∈ l, x.precipitation_mm < PRECIP_THRESHOLD_MM := by
  intro l
  induction l with
  | nil => simp [firstSignificant]
  | cons d rest ih =>
    unfold firstSignificant
    split_ifs with h
    · simp only [List.forall_mem_cons]
      constructor
      · intro h0; cases h0
      · intro hall; exact absurd hall.1 (not_lt.mpr h)
    · rw [ih, List.forall_mem_cons]
      simp [not_le.mp h]

theorem firstSignificant_some : ∀ {l : List WeatherDay} {d : WeatherDay},
    firstSignificant l = some d →
    d ∈ l ∧ PRECIP_THRESHOLD_MM ≤ d.precipitation_mm := by
  intro l
  induction l with
  | nil => intro d h; cases h
  | cons a rest ih =>
    intro d h
    unfold firstSignificant at h
    split_ifs at h with ha
    · injection h with h; subst h; exact ⟨by simp, ha⟩
    · obtain ⟨hm, hq⟩ := ih h
      exact ⟨List.mem_cons_of_mem a hm, hq⟩

theorem firstSignificant_max : ∀ {l : List WeatherDay}, l.Sorted dateGE →
    ∀ {d0 : WeatherDay}, firstSignificant l = some d0 →
    ∀ x ∈ l, PRECIP_THRESHOLD_MM ≤ x.precipitation_mm → x.date ≤ d0.date := by
  intro l
  induction l with
  | nil => intro _ d0 h; cases h
  | cons d rest ih =>
    intro hs d0 hf x hx hq
    rw [List.sorted_cons] at hs
    unfold firstSignificant at hf
    split_ifs at hf with hd
    · injection hf with hf; subst hf
      rcases List.mem_cons.mp hx with h | h
      · subst h; exact le_refl _
      · exact hs.1 x h
    · rcases List.mem_cons.mp hx with h | h
      · subst h; exact absurd hq hd
      · exact ih hs.2 hf x h hq

/-!
### Helper lemmas: the classifier
-/

/-- Unfolding of `predictTrailCondition` on a trail that is not
seasonally closed. -/
theorem predict_not_closed (t : Trail) (w : List WeatherDay) (now : ℚ)
    (h : isSeasonallyClosed t.access t.elevation_min now = false) :
    predictTrailCondition t w now =
      ⟨if isSnowOf t w now then .snow
        else if (effectiveDryHoursOf t w : ℚ) * 1.5 < (calculateHoursSinceRain w now : ℚ) then
          .rideable
        else if (effectiveDryHoursOf t w : ℚ) < (calculateHoursSinceRain w now : ℚ) then
          .likely_rideable
        else if (effectiveDryHoursOf t w : ℚ) * 0.5 < (calculateHoursSinceRain w now : ℚ) then
          .likely_muddy
        else .muddy,
       confidenceOf t, calculateHoursSinceRain w now, effectiveDryHoursOf t w⟩ := by
  unfold predictTrailCondition
  rw [h]
  simp

/-!
### Claim theorems
-/

/-- C1: for every trail that is not seasonally closed and does not trigger
the snow override, and every weather window, the condition returned by
`predictTrailCondition` is determined by comparing `hours_since_rain`
against `effective_dry_hours`: strictly greater than 1.5 times it gives
rideable, else strictly greater than 1.0 times gives likely_rideable, else
strictly greater than 0.5 times gives likely_muddy, otherwise muddy. -/
theorem claim1_bucket_thresholds (t : Trail) (w : List WeatherDay) (now : ℚ)
    (hclosed : isSeasonallyClosed t.access t.elevation_min now = false)
    (hsnow : isSnowOf t w now = false) :
    (predictTrailCondition t w now).condition =
      (if (effectiveDryHoursOf t w : ℚ) * 1.5 < (calculateHoursSinceRain w now : ℚ) then
        TrailCondition.rideable
      else if (effectiveDryHoursOf t w : ℚ) * 1 < (calculateHoursSinceRain w now : ℚ) then
        TrailCondition.likely_rideable
      else if (effectiveDryHoursOf t w : ℚ) * 0.5 < (calculateHoursSinceRain w now : ℚ) then
        TrailCondition.likely_muddy
      else TrailCondition.muddy) := by
  rw [predict_not_closed t w now hclosed]
  simp only [hsnow, Bool.false_eq_true, if_false, mul_one]

/-- Witness for C1 at a concrete trail, weather window and instant. -/
theorem claim1_witness :
    (predictTrailCondition (⟨39.75, -105.2, none, none, none, none, none, none⟩ : Trail)
        [] 12).condition =
      (if (effectiveDryHoursOf (⟨39.75, -105.2, none, none, none, none, none, none⟩ : Trail)
            [] : ℚ) * 1.5 < (calculateHoursSinceRain [] 12 : ℚ) then
        TrailCondition.rideable
      else if (effectiveDryHoursOf (⟨39.75, -105.2, none, none, none, none, none, none⟩ : Trail)
            [] : ℚ) * 1 < (calculateHoursSinceRain [] 12 : ℚ) then
        TrailCondition.likely_rideable
      else if (effectiveDryHoursOf (⟨39.75, -105.2, none, none, none, none, none, none⟩ : Trail)
            [] : ℚ) * 0.5 < (calculateHoursSinceRain [] 12 : ℚ) then
        TrailCondition.likely_muddy
      else TrailCondition.muddy) :=
  claim1_bucket_thresholds _ _ _ (by with_unfolding_all decide) (by with_unfolding_all decide)

/-- C3: for every trail whose access text trims and lowercases to exactly
"no", and for every weather window and instant, the classifier returns the
closed condition with confidence 100 and zero hour fields, independently
of the weather. -/
theorem claim3_access_no_closed (t : Trail) (w : List WeatherDay) (now : ℚ)
    (cs : List Char) (ha : t.access = some cs) (hno : trimLower cs = "no".toList) :
    predictTrailCondition t w now = ⟨.closed, 100, 0, 0⟩ := by
  have hcl : isSeasonallyClosed t.access t.elevation_min now = true := by
    rw [ha]
    have hne : ¬(trimList cs = []) := by
      intro h0
      have h1 : trimLower cs = [] := by unfold trimLower; rw [h0]; rfl
      rw [h1] at hno
      exact absurd hno (by decide)
    simp only [isSeasonallyClosed, hne, if_false, ite_false]
    rw [if_pos (Or.inl hno)]
  unfold predictTrailCondition
  rw [hcl]
  simp

/-- Witness for C3 at a concrete trail and nonempty weather window. -/
theorem claim3_witness :
    predictTrailCondition
        (⟨39.75, -105.2, some 2000, none, some .S, some .wellDrained, some 24,
          some (("no").toList)⟩ : Trail)
        [⟨0, 10, 20, 5, 50⟩] 12 = ⟨.closed, 100, 0, 0⟩ :=
  claim3_access_no_closed _ _ _ _ rfl (by with_unfolding_all decide)

/-- C7: the temperature modifier is the exact step function 0.7 / 1.0 / 1.5
/ 3.0 on strictly-greater comparisons, and the boundary inputs 20, 10 and 0
fall into the lower bucket. -/
theorem claim7_temperature_modifier :
    (∀ t : ℚ,
      (20 < t → temperatureModifier t = 0.7) ∧
      (10 < t ∧ t ≤ 20 → temperatureModifier t = 1) ∧
      (0 < t ∧ t ≤ 10 → temperatureModifier t = 1.5) ∧
      (t ≤ 0 → temperatureModifier t = 3)) ∧
    temperatureModifier 20 = 1 ∧ temperatureModifier 10 = 1.5 ∧
      temperatureModifier 0 = 3 := by
  refine ⟨fun t => ⟨?_, ?_, ?_, ?_⟩, ?_, ?_, ?_⟩
  · intro h
    unfold temperatureModifier
    rw [if_pos h]
  · rintro ⟨h1, h2⟩
    unfold temperatureModifier
    rw [if_neg (by linarith), if_pos h1]
  · rintro ⟨h1, h2⟩
    unfold temperatureModifier
    rw [if_neg (by linarith), if_neg (by linarith), if_pos h1]
  · intro h
    unfold temperatureModifier
    rw [if_neg (by linarith), if_neg (by linarith), if_neg (by linarith)]
  · norm_num [temperatureModifier]
  · norm_num [temperatureModifier]
  · norm_num [temperatureModifier]

/-- Witness for C7 in the hot bucket. -/
theorem claim7_witness : temperatureModifier 25 = 0.7 :=
  (claim7_temperature_modifier.1 25).1 (by norm_num)

/-- C9: the classifier is total by construction and the returned condition
is always one of the six labels rideable, likely_rideable, likely_muddy,
muddy, snow, closed; the label unknown is never produced (in particular
not on an empty weather window, which takes the no-significant-rain
branch). -/
theorem claim9_condition_labels (t : Trail) (w : List WeatherDay) (now : ℚ) :
    (predictTrailCondition t w now).condition ∈
      [TrailCondition.rideable, TrailCondition.likely_rideable,
        TrailCondition.likely_muddy, TrailCondition.muddy,
        TrailCondition.snow, TrailCondition.closed] := by
  unfold predictTrailCondition
  split
  · simp
  · dsimp only
    split_ifs <;> simp

/-- C5: `calculateHoursSinceRain` scans the window in descending date
order; if some day reaches the 2.5 mm threshold it returns
`max 0 (round(now - noon of the most recent such day))`; if no day
reaches the threshold it returns the window length times 24; on an empty
window it returns 0. -/
theorem claim5_hours_since_rain (w : List WeatherDay) (now : ℚ) :
    ((∀ x ∈ w, x.precipitation_mm < PRECIP_THRESHOLD_MM) →
      calculateHoursSinceRain w now = (w.length : ℤ) * 24) ∧
    (∀ d ∈ w, PRECIP_THRESHOLD_MM ≤ d.precipitation_mm →
      (∀ x ∈ w, PRECIP_THRESHOLD_MM ≤ x.precipitation_mm → x.date ≤ d.date) →
      calculateHoursSinceRain w now =
        max 0 (jsRound (now - ((24 * d.date + 12 : ℤ) : ℚ)))) ∧
    (w = [] → calculateHoursSinceRain w now = 0) := by
  refine ⟨?_, ?_, ?_⟩
  · intro h
    have hn : firstSignificant (sortByDateDesc w) = none :=
      firstSignificant_eq_none.mpr (fun x hx => h x (mem_sortByDateDesc.mp hx))
    unfold calculateHoursSinceRain
    rw [hn]
  · intro d hd hq hmax
    rcases hfd : firstSignificant (sortByDateDesc w) with _ | d0
    · exact absurd hq
        (not_le.mpr (firstSignificant_eq_none.mp hfd d (mem_sortByDateDesc.mpr hd)))
    · obtain ⟨hd0mem, hd0q⟩ := firstSignificant_some hfd
      have h1 : d0.date ≤ d.date := hmax d0 (mem_sortByDateDesc.mp hd0mem) hd0q
      have h2 : d.date ≤ d0.date :=
        firstSignificant_max (sorted_sortByDateDesc w) hfd d (mem_sortByDateDesc.mpr hd) hq
      have hdate : d0.date = d.date := le_antisymm h1 h2
      unfold calculateHoursSinceRain
      rw [hfd]
      dsimp only
      rw [hdate]
  · intro h
    subst h
    rfl

/-- Witness for C5: a one-day window whose single day is significant. -/
theorem claim5_witness :
    calculateHoursSinceRain [⟨100, 3, 10, 0, 50⟩] 2500 =
      max 0 (jsRound (2500 - ((24 * (100 : ℤ) + 12 : ℤ) : ℚ))) :=
  (claim5_hours_since_rain [⟨100, 3, 10, 0, 50⟩] 2500).2.1 ⟨100, 3, 10, 0, 50⟩
    (by simp) (by norm_num [PRECIP_THRESHOLD_MM]) (by
      intro x hx _
      rw [List.mem_singleton.mp hx])

/-- C2 counterexample: a trail with no known attributes whose corrected
average temperature is below freezing gets the snow condition, but its
confidence is 50 (the general formula with no bonuses), not the fixed 90
asserted by the claim. -/
theorem claim2_counterexample :
    (predictTrailCondition (⟨40.015, -105.27, none, none, none, none, none, none⟩ : Trail)
        [⟨0, 0, -10, -15, 50⟩] 12).condition = TrailCondition.snow ∧
    (predictTrailCondition (⟨40.015, -105.27, none, none, none, none, none, none⟩ : Trail)
        [⟨0, 0, -10, -15, 50⟩] 12).confidence = 50 := by
  with_unfolding_all decide

/-- C2 (amended): for every trail that is not seasonally closed, if any
snow clause holds then the returned condition is snow, and the confidence
is the value of the general formula (base 50, +25 soil, +10 aspect, +10
elevation, capped at 100) rather than a fixed 90. -/
theorem claim2_snow_confidence_formula (t : Trail) (w : List WeatherDay) (now : ℚ)
    (hclosed : isSeasonallyClosed t.access t.elevation_min now = false)
    (hsnow : isSnowOf t w now = true) :
    (predictTrailCondition t w now).condition = TrailCondition.snow ∧
    (predictTrailCondition t w now).confidence =
      min (50 + (if t.soil_drainage_class.isSome then 25 else 0) +
        (if t.dominant_aspect.isSome then 10 else 0) +
        (if t.elevation_min.isSome then 10 else 0)) 100 := by
  rw [predict_not_closed t w now hclosed]
  exact ⟨by simp [hsnow], rfl⟩

/-- Witness for the amended C2 at a concrete freezing input. -/
theorem claim2_witness :
    (predictTrailCondition (⟨39.6, -106.0, some 3500, none, some .N, none, none, none⟩ : Trail)
        [⟨0, 0, -12, -20, 50⟩] 12).condition = TrailCondition.snow ∧
    (predictTrailCondition (⟨39.6, -106.0, some 3500, none, some .N, none, none, none⟩ : Trail)
        [⟨0, 0, -12, -20, 50⟩] 12).confidence =
      min (50 + 0 + 10 + 10) 100 :=
  claim2_snow_confidence_formula _ _ _ (by with_unfolding_all decide)
    (by with_unfolding_all decide)

/-- C4 counterexample: a trail with `base_dry_hours = 0` and an
excessively drained soil class.  The claim asserts that the present value
0 is authoritative, which would make the effective dry time
`round(0 × mods) = 0`; the code instead treats 0 as falsy, falls back to
the soil table value 6 and produces an effective dry time of 6. -/
theorem claim4_counterexample :
    (predictTrailCondition
        (⟨39.75, -105.2, none, none, none, some .excessivelyDrained, some 0, none⟩ : Trail)
        [] 12).effective_dry_hours = 6 ∧
    jsRound ((0 : ℚ) * 1 * 1 * 1) = 0 := by
  with_unfolding_all decide

/-- C4 (amended): a present and nonzero `base_dry_hours` is authoritative:
the soil drainage class is then not consulted for the dry time (changing
it leaves `effective_dry_hours` unchanged), and on a non-closed trail the
effective dry time is `round(base × aspect_mod × elevation_mod ×
temperature_mod)`.  A present value of exactly 0 is conflated with absent
by the falsy coercion and falls back to the soil-derived default. -/
theorem claim4_base_dry_hours_nonzero (t : Trail) (w : List WeatherDay) (now : ℚ)
    (b : ℚ) (hb : t.base_dry_hours = some b) (hb0 : b ≠ 0)
    (s : Option DrainageClass) :
    (predictTrailCondition { t with soil_drainage_class := s } w now).effective_dry_hours =
      (predictTrailCondition t w now).effective_dry_hours ∧
    (isSeasonallyClosed t.access t.elevation_min now = false →
      (predictTrailCondition t w now).effective_dry_hours =
        jsRound (b * aspectModOf t * elevModOf t *
          temperatureModifier (correctedAvgTemp t w))) := by
  have hbase : baseDryHoursOf t = b := by
    unfold baseDryHoursOf jsOrNum
    rw [hb]
    simp [hb0]
  have hbase2 : baseDryHoursOf { t with soil_drainage_class := s } = b := by
    unfold baseDryHoursOf jsOrNum
    simp [hb, hb0]
  have heff : effectiveDryHoursOf { t with soil_drainage_class := s } w =
      effectiveDryHoursOf t w := by
    unfold effectiveDryHoursOf
    rw [hbase, hbase2]
    rfl
  constructor
  · cases hcl : isSeasonallyClosed t.access t.elevation_min now with
    | true =>
      unfold predictTrailCondition
      dsimp only
      rw [hcl]
      simp
    | false =>
      rw [predict_not_closed t w now hcl,
        predict_not_closed { t with soil_drainage_class := s } w now hcl]
      dsimp only
      exact heff
  · intro hcl
    rw [predict_not_closed t w now hcl]
    show effectiveDryHoursOf t w = _
    unfold effectiveDryHoursOf
    rw [hbase]

/-- Witness for the amended C4: base 7 with a well-drained soil class. -/
theorem claim4_witness :
    (predictTrailCondition
        (⟨39.75, -105.2, none, none, none, none, some 7, none⟩ : Trail) [] 12).effective_dry_hours =
      (predictTrailCondition
        (⟨39.75, -105.2, none, none, none, some .wellDrained, some 7, none⟩ : Trail)
        [] 12).effective_dry_hours ∧
    (predictTrailCondition
        (⟨39.75, -105.2, none, none, none, some .wellDrained, some 7, none⟩ : Trail)
        [] 12).effective_dry_hours =
      jsRound (7 *
        aspectModOf (⟨39.75, -105.2, none, none, none, some .wellDrained, some 7, none⟩ : Trail) *
        elevModOf (⟨39.75, -105.2, none, none, none, some .wellDrained, some 7, none⟩ : Trail) *
        temperatureModifier (correctedAvgTemp
          (⟨39.75, -105.2, none, none, none, some .wellDrained, some 7, none⟩ : Trail) [])) := by
  have h := claim4_base_dry_hours_nonzero
    (⟨39.75, -105.2, none, none, none, some .wellDrained, some 7, none⟩ : Trail) [] 12 7 rfl
    (by norm_num) none
  exact ⟨h.1, h.2 (by with_unfolding_all decide)⟩

set_option maxRecDepth 4000 in
/-- C6 counterexample: with access text "5/1-11/30" and the instant noon
on the 30th of November 2024 (hour 481380, whose civil date is exactly
the close date), the evaluator reports the trail closed, contradicting
the claim that the close date itself is not-closed. -/
theorem claim6_counterexample :
    civilFromDays (epochDay 481380) = (2024, 11, 30) ∧
    isSeasonallyClosed (some (("5/1-11/30").toList)) none 481380 = true := by
  with_unfolding_all decide

/-- C6 (amended): for every access text containing the date-range pattern
M/D-M/D, the evaluator builds midnight timestamps of the open and close
dates in the current year and reports closed exactly when `now` is
strictly before the open midnight or strictly after the close midnight.
Consequently no instant of the open date is closed, but on the close date
every instant after midnight already counts as closed. -/
theorem claim6_date_range_midnight (cs : List Char) (elev : Option ℚ) (now : ℚ)
    (m1 d1 m2 d2 : ℤ) (h : findDateRange cs = some (m1, d1, m2, d2)) :
    isSeasonallyClosed (some cs) elev now = true ↔
      (now < ((24 * makeDay (getFullYear now) (m1 - 1) d1 : ℤ) : ℚ) ∨
        ((24 * makeDay (getFullYear now) (m2 - 1) d2 : ℤ) : ℚ) < now) := by
  rw [isSeasonallyClosed_of_dateRange h]
  simp

set_option maxRecDepth 4000 in
/-- Witness for the amended C6 at noon on the 4th of July 2024. -/
theorem claim6_witness :
    isSeasonallyClosed (some (("5/1-11/30").toList)) none 477804 = true ↔
      ((477804 : ℚ) < ((24 * makeDay (getFullYear 477804) (5 - 1) 1 : ℤ) : ℚ) ∨
        ((24 * makeDay (getFullYear 477804) (11 - 1) 30 : ℤ) : ℚ) < 477804) :=
  claim6_date_range_midnight _ none 477804 5 1 11 30 (by with_unfolding_all decide)

/-- The confidence of a prediction: 100 on the closed short-circuit and
the bonus formula otherwise. -/
theorem predict_confidence_eq (t : Trail) (w : List WeatherDay) (now : ℚ) :
    (predictTrailCondition t w now).confidence =
      if isSeasonallyClosed t.access t.elevation_min now then 100 else confidenceOf t := by
  unfold predictTrailCondition
  split
  · rfl
  · rfl

/-- Seasonal closure is monotone in the knownness of the minimum
elevation: the elevation is consulted only by the "seasonally" heuristic,
which can never report closed when the elevation is unknown. -/
theorem isSeasonallyClosed_mono_elev {a : Option (List Char)} {now : ℚ} {e e' : Option ℚ}
    (hle : optKnownLE e e') (hc : isSeasonallyClosed a e now = true) :
    isSeasonallyClosed a e' now = true := by
  rcases hle with h | h
  · subst h
    cases a with
    | none => exact absurd hc (by simp [isSeasonallyClosed])
    | some cs =>
      simp only [isSeasonallyClosed] at hc ⊢
      by_cases h1 : trimList cs = []
      · rw [if_pos h1] at hc
        cases hc
      · rw [if_neg h1] at hc ⊢
        by_cases h2 : trimLower cs = "no".toList ∨
            trimLower cs = "authorized/permitted user only".toList
        · rw [if_pos h2]
        · rw [if_neg h2] at hc ⊢
          rcases h3 : findDateRange cs with _ | ⟨m1, d1, m2, d2⟩
          · simp only [h3] at hc ⊢
            by_cases h4 : trimLower cs = "seasonally".toList
            · rw [if_pos h4] at hc
              exfalso
              simp only [jsOrNum] at hc
              norm_num at hc
            · rw [if_neg h4] at hc
              cases hc
          · simp only [h3] at hc ⊢
            exact hc
  · subst h
    exact hc

/-- C8: holding the weather window, access text and instant fixed, the
returned confidence lies in [50, 100], equals the capped bonus formula
(100 on the closed short-circuit), and is monotonically non-decreasing as
the optional soil, aspect and elevation attributes go from null to
known. -/
theorem claim8_confidence (t : Trail) (w : List WeatherDay) (now : ℚ)
    (s : Option DrainageClass) (a : Option Aspect) (e : Option ℚ) :
    (50 ≤ (predictTrailCondition t w now).confidence ∧
      (predictTrailCondition t w now).confidence ≤ 100) ∧
    (predictTrailCondition t w now).confidence =
      (if isSeasonallyClosed t.access t.elevation_min now then (100 : ℤ)
        else min (50 + (if t.soil_drainage_class.isSome then 25 else 0) +
          (if t.dominant_aspect.isSome then 10 else 0) +
          (if t.elevation_min.isSome then 10 else 0)) 100) ∧
    (optKnownLE t.soil_drainage_class s → optKnownLE t.dominant_aspect a →
      optKnownLE t.elevation_min e →
      (predictTrailCondition t w now).confidence ≤
        (predictTrailCondition
          { t with soil_drainage_class := s, dominant_aspect := a, elevation_min := e }
          w now).confidence) := by
  refine ⟨?_, ?_, ?_⟩
  · rw [predict_confidence_eq]
    unfold confidenceOf
    split_ifs <;> omega
  · rw [predict_confidence_eq]
    rfl
  · intro hs ha he
    rw [predict_confidence_eq, predict_confidence_eq]
    dsimp only
    by_cases hc : isSeasonallyClosed t.access t.elevation_min now = true
    · rw [if_pos hc, if_pos (isSeasonallyClosed_mono_elev he hc)]
    · rw [if_neg hc]
      by_cases hc2 : isSeasonallyClosed t.access e now = true
      · rw [if_pos hc2]
        unfold confidenceOf
        split_ifs <;> omega
      · rw [if_neg hc2]
        unfold confidenceOf
        dsimp only
        have h1 : (if t.soil_drainage_class.isSome then (25 : ℤ) else 0) ≤
            (if s.isSome then 25 else 0) := by
          rcases hs with h | h
          · rw [h]
            simp only [Option.isSome_none, Bool.false_eq_true, if_false]
            split_ifs <;> omega
          · rw [h]
        have h2 : (if t.dominant_aspect.isSome then (10 : ℤ) else 0) ≤
            (if a.isSome then 10 else 0) := by
          rcases ha with h | h
          · rw [h]
            simp only [Option.isSome_none, Bool.false_eq_true, if_false]
            split_ifs <;> omega
          · rw [h]
        have h3 : (if t.elevation_min.isSome then (10 : ℤ) else 0) ≤
            (if e.isSome then 10 else 0) := by
          rcases he with h | h
          · rw [h]
            simp only [Option.isSome_none, Bool.false_eq_true, if_false]
            split_ifs <;> omega
          · rw [h]
        exact min_le_min (by linarith) (le_refl 100)

/-- Witness for C8: making all three attributes known does not decrease
the confidence. -/
theorem claim8_witness :
    (predictTrailCondition (⟨39.75, -105.2, none, none, none, none, none, none⟩ : Trail)
        [] 12).confidence ≤
      (predictTrailCondition
        (⟨39.75, -105.2, some 1800, none, some .S, some .wellDrained, none, none⟩ : Trail)
        [] 12).confidence :=
  (claim8_confidence (⟨39.75, -105.2, none, none, none, none, none, none⟩ : Trail) [] 12
      (some .wellDrained) (some .S) (some 1800)).2.2
    (Or.inl rfl) (Or.inl rfl) (Or.inl rfl)

/-- Under the C10 hypotheses the lapse correction vanishes, so the
corrected average temperature is the raw station average. -/
theorem correctedAvgTemp_eq_station (t : Trail) (w : List WeatherDay) (e : ℚ)
    (he : t.elevation_min = some e) (hst : e = stationElevationOf t) :
    correctedAvgTemp t w = calculateAvgTemp w 3 := by
  have hsub : trailElevationOf t - stationElevationOf t = 0 := by
    unfold trailElevationOf jsOrNum
    rw [he]
    dsimp only
    split_ifs with h0
    · exact sub_self _
    · rw [hst]; exact sub_self _
  unfold correctedAvgTemp
  rw [hsub]
  norm_num

/-- Under the C10 hypotheses the trail elevation in feet stays at or
below 9500. -/
theorem trailElevFt_le (t : Trail) (e : ℚ) (he : t.elevation_min = some e)
    (hst : e = stationElevationOf t) (hft : e * 3.28084 ≤ 9500) :
    trailElevationOf t * 3.28084 ≤ 9500 := by
  unfold trailElevationOf jsOrNum
  rw [he]
  dsimp only
  split_ifs with h0
  · rw [← hst]; exact hft
  · exact hft

/-- Under the C10 hypotheses the snow override degenerates to the
freezing test of the early implementation. -/
theorem isSnowOf_eq_freezing (t : Trail) (w : List WeatherDay) (now : ℚ) (e : ℚ)
    (he : t.elevation_min = some e) (hst : e = stationElevationOf t)
    (hft : e * 3.28084 ≤ 9500) :
    isSnowOf t w now = decide (calculateAvgTemp w 3 < 0) := by
  have hfe := trailElevFt_le t e he hst hft
  have h11 : decide (11000 < trailElevationOf t * 3.28084) = false :=
    decide_eq_false (by linarith)
  have h95 : decide (9500 < trailElevationOf t * 3.28084) = false :=
    decide_eq_false (not_lt.mpr hfe)
  simp only [isSnowOf, correctedAvgTemp_eq_station t w e he hst, h11, h95,
    Bool.and_false, Bool.false_and, Bool.or_false]

/-- C10: on a trail with no access text and a known minimum elevation
equal to its nearest station elevation (zero lapse correction) at or
below 9500 feet, the current implementation and the early simplified
implementation return identical predictions. -/
theorem claim10_refinement (t : Trail) (w : List WeatherDay) (now : ℚ) (e : ℚ)
    (hacc : t.access = none) (he : t.elevation_min = some e)
    (hst : e = stationElevationOf t) (hft : e * 3.28084 ≤ 9500) :
    predictTrailCondition t w now = predictTrailConditionOld t w now := by
  have hclosed : isSeasonallyClosed t.access t.elevation_min now = false := by
    rw [hacc]; rfl
  rw [predict_not_closed t w now hclosed]
  unfold predictTrailConditionOld
  rw [isSnowOf_eq_freezing t w now e he hst hft]
  have heff : effectiveDryHoursOf t w =
      jsRound (baseDryHoursOf t * aspectModOf t * elevModOf t *
        temperatureModifier (calculateAvgTemp w 3)) := by
    unfold effectiveDryHoursOf
    rw [correctedAvgTemp_eq_station t w e he hst]
  rw [heff]
  simp [decide_eq_true_eq]

set_option maxRecDepth 4000 in
/-- Witness for C10 at a concrete front-range trail. -/
theorem claim10_witness :
    predictTrailCondition (⟨39.75, -105.2, some 1800, none, none, none, none, none⟩ : Trail)
        [] 12 =
      predictTrailConditionOld
        (⟨39.75, -105.2, some 1800, none, none, none, none, none⟩ : Trail) [] 12 :=
  claim10_refinement _ _ _ 1800 rfl rfl (by with_unfolding_all decide) (by norm_num)

end StaySingletrack
